import Mathlib

/-!
Verification of the `gpio` package: a hardware-agnostic capability model
for GPIO pins.  The package consists of three integer-backed enumeration
types (`Value`, `Direction`, `EdgeSensitivity`) with panicking `String`
conversions, and a family of single-operation capability interfaces
composed into the aggregates `Puller` and `GpioPin`.

Embedding conventions:
- Go `type T int` enumerations become `Int` abbreviations, with the
  declared constants carrying their source encodings.
- A Go method that can panic is embedded as a function returning
  `Option`; `none` marks the panicking branch of the source `switch`.
- A Go interface (a method set) becomes a structure whose fields are the
  methods in state-passing style over an abstract state type `σ` and an
  abstract error type `ε`; a Go `error` result becomes `Option ε`
  (`none` standing for Go's `nil` error).
-/

/-- Go: `type Value int` — enumeration of the two GPIO logic values. -/
abbrev Value := Int

/-- Go: `type Direction int` — enumeration of the two GPIO directions. -/
abbrev Direction := Int

/-- Go: `type EdgeSensitivity int` — enumeration of edge-trigger modes. -/
abbrev EdgeSensitivity := Int

/-- Go: `Low Value = 0`. -/
def Low : Value := 0

/-- Go: `High Value = 1`. -/
def High : Value := 1

/-- Go: `In Direction = 0`. -/
def In : Direction := 0

/-- Go: `Out Direction = 1`. -/
def Out : Direction := 1

/-- Go: `NoEdges EdgeSensitivity = 0`. -/
def NoEdges : EdgeSensitivity := 0

/-- Go: `RisingEdge EdgeSensitivity = 1`. -/
def RisingEdge : EdgeSensitivity := 1

/-- Go: `FallingEdge EdgeSensitivity = 2`. -/
def FallingEdge : EdgeSensitivity := 2

/-- Go: `BothEdges EdgeSensitivity = 3`. -/
def BothEdges : EdgeSensitivity := 3

/-- The closed tag set of `Value`: the declared constants and nothing else. -/
def Value.valid (value : Value) : Prop :=
  value = Low ∨ value = High

instance (value : Value) : Decidable (Value.valid value) := by
  unfold Value.valid; infer_instance

/-- The closed tag set of `Direction`. -/
def Direction.valid (direction : Direction) : Prop :=
  direction = In ∨ direction = Out

instance (direction : Direction) : Decidable (Direction.valid direction) := by
  unfold Direction.valid; infer_instance

/-- The closed tag set of `EdgeSensitivity`. -/
def EdgeSensitivity.valid (sensitivity : EdgeSensitivity) : Prop :=
  sensitivity = NoEdges ∨ sensitivity = RisingEdge ∨
    sensitivity = FallingEdge ∨ sensitivity = BothEdges

instance (sensitivity : EdgeSensitivity) : Decidable (EdgeSensitivity.valid sensitivity) := by
  unfold EdgeSensitivity.valid; infer_instance

/-- Go: `func (value Value) String() string` — the `switch` on the
receiver with cases `Low` and `High`; the `default` branch panics,
embedded here as `none`. -/
def Value.String (value : Value) : Option String :=
  if value = Low then some ("Low")
  else if value = High then some ("High")
  else none

/-- Go: `func (direction Direction) String() string` — the `switch` with
cases `In` and `Out`; the `default` branch panics, embedded as `none`. -/
def Direction.String (direction : Direction) : Option String :=
  if direction = In then some ("In")
  else if direction = Out then some ("Out")
  else none

/-- Go: `func (sensitivity EdgeSensitivity) String() string` — the
`switch` with cases `NoEdges`, `BothEdges`, `RisingEdge`, `FallingEdge`
(in that source order); the `default` branch panics, embedded as `none`. -/
def EdgeSensitivity.String (sensitivity : EdgeSensitivity) : Option String :=
  if sensitivity = NoEdges then some ("NoEdges")
  else if sensitivity = BothEdges then some ("BothEdges")
  else if sensitivity = RisingEdge then some ("RisingEdge")
  else if sensitivity = FallingEdge then some ("FallingEdge")
  else none

/-- Go: `type ValueSetter interface` with the single method
`SetValue(value Value) (err error)`. -/
structure ValueSetter (σ ε : Type) where
  SetValue : Value → σ → Option ε × σ

/-- Go: `type ValueGetter interface` with the single method
`Value() (value Value, err error)`. -/
structure ValueGetter (σ ε : Type) where
  Value : σ → (Value × Option ε) × σ

/-- Go: `type DirectionSetter interface` with the single method
`SetDirection(direction Direction) (err error)`. -/
structure DirectionSetter (σ ε : Type) where
  SetDirection : Direction → σ → Option ε × σ

/-- Go: `type PullStopper interface` with the single method
`StopPulling() (err error)`. -/
structure PullStopper (σ ε : Type) where
  StopPulling : σ → Option ε × σ

/-- Go: `type UpPuller interface` with the single method
`PullUp() (err error)`. -/
structure UpPuller (σ ε : Type) where
  PullUp : σ → Option ε × σ

/-- Go: `type DownPuller interface` with the single method
`PullDown() (err error)`. -/
structure DownPuller (σ ε : Type) where
  PullDown : σ → Option ε × σ

/-- Go: `type Puller interface` embedding `UpPuller`, `DownPuller` and
`PullStopper` and declaring no method of its own. -/
structure Puller (σ ε : Type) extends
  UpPuller σ ε, DownPuller σ ε, PullStopper σ ε

/-- Go: `type GpioPin interface` embedding `ValueGetter`, `ValueSetter`
and `DirectionSetter` and declaring no method of its own. -/
structure GpioPin (σ ε : Type) extends
  ValueGetter σ ε, ValueSetter σ ε, DirectionSetter σ ε

/-- Go: `type EdgeWaiter interface` with the two methods
`SetSensitivity(sensitivity EdgeSensitivity) (err error)` and
`WaitForEdge() (err error)`. -/
structure EdgeWaiter (σ ε : Type) where
  SetSensitivity : EdgeSensitivity → σ → Option ε × σ
  WaitForEdge : σ → Option ε × σ

/-- Modelled from the spec: the repository declares only the `EdgeWaiter`
interface and contains no implementation, so the observable triggering
behaviour of a waiter is taken from the spec: `RisingEdge` is sensitive
to changes from Low to High, `FallingEdge` to changes from High to Low,
`BothEdges` to changes in either direction, and `NoEdges` disables all
triggers. -/
def edgeMatches (sensitivity : EdgeSensitivity) (before after : Value) : Bool :=
  if sensitivity = RisingEdge then before == Low && after == High
  else if sensitivity = FallingEdge then before == High && after == Low
  else if sensitivity = BothEdges then before != after
  else false

/-- Modelled from the spec: a `WaitForEdge` call of a waiter armed with
`sensitivity`, observed against a finite trace of pin transitions
(pairs of a value before and after a change).  The call returns at the
first transition matching the armed sensitivity; `none` means the wait
has not ended within the observed trace. -/
def waitForEdge (sensitivity : EdgeSensitivity) :
    List (Value × Value) → Option Nat
  | [] => none
  | t :: rest =>
    if edgeMatches sensitivity t.1 t.2 then some 0
    else (waitForEdge sensitivity rest).map (fun n => n + 1)

/-- The Go method call `value.String()` in state-passing style: the
source body only inspects the receiver — a `switch` whose branches
`return` a literal or panic — and performs no assignment, so the ambient
program state `st` is threaded through unchanged. -/
def ValueStringCall (σ : Type) (value : Value) (st : σ) :
    Option String × σ :=
  (Value.String value, st)

/-- The Go method call `direction.String()` in state-passing style; the
source body performs no assignment, so the state is unchanged. -/
def DirectionStringCall (σ : Type) (direction : Direction) (st : σ) :
    Option String × σ :=
  (Direction.String direction, st)

/-- The Go method call `sensitivity.String()` in state-passing style; the
source body performs no assignment, so the state is unchanged. -/
def EdgeSensitivityStringCall (σ : Type) (sensitivity : EdgeSensitivity)
    (st : σ) : Option String × σ :=
  (EdgeSensitivity.String sensitivity, st)

lemma int_mem_range_two (v : Int) (h1 : 0 ≤ v) (h2 : v < 2) :
    v = 0 ∨ v = 1 := by
  omega

lemma int_mem_range_four (v : Int) (h1 : 0 ≤ v) (h2 : v < 4) :
    v = 0 ∨ v = 1 ∨ v = 2 ∨ v = 3 := by
  omega

lemma waitForEdge_noEdges_eq_none (trace : List (Value × Value)) :
    waitForEdge NoEdges trace = none := by
  induction trace with
  | nil => rfl
  | cons t rest ih =>
    simp only [NoEdges] at ih ⊢
    simp [waitForEdge, edgeMatches, RisingEdge, FallingEdge, BothEdges, ih]

/-- Claim C1: for every valid tag, the textual conversion returns exactly
the documented string: `Value.String` returns "Low" for `Low` and "High"
for `High`; `Direction.String` returns "In" for `In` and "Out" for `Out`;
`EdgeSensitivity.String` returns "NoEdges", "RisingEdge", "FallingEdge",
"BothEdges" for the respective tags. -/
theorem string_documented_outputs :
    Value.String Low = some ("Low") ∧ Value.String High = some ("High") ∧
    Direction.String In = some ("In") ∧ Direction.String Out = some ("Out") ∧
    EdgeSensitivity.String NoEdges = some ("NoEdges") ∧
    EdgeSensitivity.String RisingEdge = some ("RisingEdge") ∧
    EdgeSensitivity.String FallingEdge = some ("FallingEdge") ∧
    EdgeSensitivity.String BothEdges = some ("BothEdges") := by
  decide

/-- Claim C2: for every underlying integer outside the closed tag set of
its enumeration, the `String` conversion reaches the panicking `default`
branch (embedded as `none`) and never returns any string at all, in
particular no empty, default or sentinel string. -/
theorem string_invalid_tag_panics (value : Value) (direction : Direction)
    (sensitivity : EdgeSensitivity)
    (hv : ¬ Value.valid value) (hd : ¬ Direction.valid direction)
    (hs : ¬ EdgeSensitivity.valid sensitivity) :
    Value.String value = none ∧ Direction.String direction = none ∧
    EdgeSensitivity.String sensitivity = none := by
  rw [Value.valid] at hv
  rw [Direction.valid] at hd
  rw [EdgeSensitivity.valid] at hs
  push_neg at hv hd hs
  refine ⟨?_, ?_, ?_⟩
  · simp [Value.String, hv.1, hv.2]
  · simp [Direction.String, hd.1, hd.2]
  · simp [EdgeSensitivity.String, hs.1, hs.2.1, hs.2.2.1, hs.2.2.2]

/-- Witness for claim C2 at the concrete out-of-domain integers 2, -1
and 4. -/
theorem string_invalid_tag_panics_witness :
    Value.String 2 = none ∧ Direction.String (-1) = none ∧
    EdgeSensitivity.String 4 = none :=
  string_invalid_tag_panics 2 (-1) 4 (by decide) (by decide) (by decide)

/-- Claim C3: the `String` conversion is injective on the valid tags of
each enumeration, so re-deriving a tag from its documented string yields
the tag again: each valid tag maps to exactly one documented string. -/
theorem string_injective_on_valid_tags :
    (∀ a b : Value, Value.valid a → Value.valid b →
      Value.String a = Value.String b → a = b) ∧
    (∀ a b : Direction, Direction.valid a → Direction.valid b →
      Direction.String a = Direction.String b → a = b) ∧
    (∀ a b : EdgeSensitivity, EdgeSensitivity.valid a →
      EdgeSensitivity.valid b →
      EdgeSensitivity.String a = EdgeSensitivity.String b → a = b) := by
  refine ⟨?_, ?_, ?_⟩
  · intro a b ha hb h
    rcases ha with rfl | rfl <;> rcases hb with rfl | rfl <;>
      revert h <;> decide
  · intro a b ha hb h
    rcases ha with rfl | rfl <;> rcases hb with rfl | rfl <;>
      revert h <;> decide
  · intro a b ha hb h
    rcases ha with rfl | rfl | rfl | rfl <;>
      rcases hb with rfl | rfl | rfl | rfl <;> revert h <;> decide

/-- Witness for claim C3, applying the injectivity statement at the
concrete tags `High`, `Out` and `FallingEdge`. -/
theorem string_injective_on_valid_tags_witness :
    High = High ∧ Out = Out ∧ FallingEdge = FallingEdge :=
  ⟨string_injective_on_valid_tags.1 High High
      (by decide) (by decide) (by decide),
    string_injective_on_valid_tags.2.1 Out Out
      (by decide) (by decide) (by decide),
    string_injective_on_valid_tags.2.2 FallingEdge FallingEdge
      (by decide) (by decide) (by decide)⟩

/-- Claim C4: a waiter whose armed sensitivity is `NoEdges` never returns
from `WaitForEdge`: over every finite trace of pin transitions, however
long, the wait finds no matching edge, so it blocks indefinitely rather
than failing or returning immediately. -/
theorem waitForEdge_noEdges_never_returns (trace : List (Value × Value)) :
    waitForEdge NoEdges trace = none :=
  waitForEdge_noEdges_eq_none trace

/-- Claim C5: satisfying `GpioPin` is exactly satisfying `ValueGetter`,
`ValueSetter` and `DirectionSetter` simultaneously (the projection onto
the triple of component contracts is a bijection, so `GpioPin` adds no
capability beyond the three), and each component contract consists of
exactly its one operation. -/
theorem gpioPin_is_exactly_three_capabilities (σ ε : Type) :
    Function.Bijective (fun pin : GpioPin σ ε =>
      (pin.toValueGetter, pin.toValueSetter, pin.toDirectionSetter)) ∧
    Function.Bijective (fun g : ValueGetter σ ε => g.Value) ∧
    Function.Bijective (fun s : ValueSetter σ ε => s.SetValue) ∧
    Function.Bijective (fun d : DirectionSetter σ ε => d.SetDirection) := by
  refine ⟨⟨?_, ?_⟩, ⟨?_, ?_⟩, ⟨?_, ?_⟩, ⟨?_, ?_⟩⟩
  · rintro ⟨g, s, d⟩ ⟨g2, s2, d2⟩ h
    simp only [Prod.mk.injEq] at h
    obtain ⟨h1, h2, h3⟩ := h
    subst h1; subst h2; subst h3; rfl
  · rintro ⟨g, s, d⟩
    exact ⟨⟨g, s, d⟩, rfl⟩
  · rintro ⟨f⟩ ⟨g⟩ h
    exact congrArg ValueGetter.mk h
  · intro f
    exact ⟨⟨f⟩, rfl⟩
  · rintro ⟨f⟩ ⟨g⟩ h
    exact congrArg ValueSetter.mk h
  · intro f
    exact ⟨⟨f⟩, rfl⟩
  · rintro ⟨f⟩ ⟨g⟩ h
    exact congrArg DirectionSetter.mk h
  · intro f
    exact ⟨⟨f⟩, rfl⟩

/-- Claim C6: satisfying `Puller` is exactly satisfying `UpPuller`,
`DownPuller` and `PullStopper` simultaneously (the projection onto the
triple of component contracts is a bijection), and each of the three
component contracts consists of exactly its one operation. -/
theorem puller_is_exactly_three_single_operations (σ ε : Type) :
    Function.Bijective (fun puller : Puller σ ε =>
      (puller.toUpPuller, puller.toDownPuller, puller.toPullStopper)) ∧
    Function.Bijective (fun u : UpPuller σ ε => u.PullUp) ∧
    Function.Bijective (fun d : DownPuller σ ε => d.PullDown) ∧
    Function.Bijective (fun p : PullStopper σ ε => p.StopPulling) := by
  refine ⟨⟨?_, ?_⟩, ⟨?_, ?_⟩, ⟨?_, ?_⟩, ⟨?_, ?_⟩⟩
  · rintro ⟨u, d, p⟩ ⟨u2, d2, p2⟩ h
    simp only [Prod.mk.injEq] at h
    obtain ⟨h1, h2, h3⟩ := h
    subst h1; subst h2; subst h3; rfl
  · rintro ⟨u, d, p⟩
    exact ⟨⟨u, d, p⟩, rfl⟩
  · rintro ⟨f⟩ ⟨g⟩ h
    exact congrArg UpPuller.mk h
  · intro f
    exact ⟨⟨f⟩, rfl⟩
  · rintro ⟨f⟩ ⟨g⟩ h
    exact congrArg DownPuller.mk h
  · intro f
    exact ⟨⟨f⟩, rfl⟩
  · rintro ⟨f⟩ ⟨g⟩ h
    exact congrArg PullStopper.mk h
  · intro f
    exact ⟨⟨f⟩, rfl⟩

/-- Claim C7: the declared tags of each enumeration are pairwise
distinct: `Low` and `High` differ, `In` and `Out` differ, and the four
`EdgeSensitivity` tags are pairwise distinct. -/
theorem enumeration_tags_pairwise_distinct :
    Low ≠ High ∧ In ≠ Out ∧
    NoEdges ≠ RisingEdge ∧ NoEdges ≠ FallingEdge ∧ NoEdges ≠ BothEdges ∧
    RisingEdge ≠ FallingEdge ∧ RisingEdge ≠ BothEdges ∧
    FallingEdge ≠ BothEdges := by
  decide

/-- Claim C8: the `String` conversion on each enumeration is
deterministic and has no side effects: for every valid tag, two calls
made from any two program states return the same string, and the call
leaves the program state unchanged. -/
theorem string_deterministic_no_side_effects (σ : Type)
    (value : Value) (direction : Direction) (sensitivity : EdgeSensitivity)
    (hv : Value.valid value) (hd : Direction.valid direction)
    (hs : EdgeSensitivity.valid sensitivity) (s1 s2 : σ) :
    ((ValueStringCall σ value s1).1 = (ValueStringCall σ value s2).1 ∧
      (ValueStringCall σ value s1).2 = s1) ∧
    ((DirectionStringCall σ direction s1).1 =
        (DirectionStringCall σ direction s2).1 ∧
      (DirectionStringCall σ direction s1).2 = s1) ∧
    ((EdgeSensitivityStringCall σ sensitivity s1).1 =
        (EdgeSensitivityStringCall σ sensitivity s2).1 ∧
      (EdgeSensitivityStringCall σ sensitivity s1).2 = s1) :=
  ⟨⟨rfl, rfl⟩, ⟨rfl, rfl⟩, ⟨rfl, rfl⟩⟩

/-- Witness for claim C8 at the tags `Low`, `In`, `NoEdges` and the
concrete states 0 and 1. -/
theorem string_deterministic_no_side_effects_witness :
    (ValueStringCall Nat Low 0).1 = (ValueStringCall Nat Low 1).1 ∧
    (ValueStringCall Nat Low 0).2 = 0 :=
  (string_deterministic_no_side_effects Nat Low In NoEdges
    (by decide) (by decide) (by decide) 0 1).1

/-- Claim C9: the enumerations have the fixed integer encodings
`Low` = 0, `High` = 1, `In` = 0, `Out` = 1, `NoEdges` = 0,
`RisingEdge` = 1, `FallingEdge` = 2, `BothEdges` = 3, each tag set is
the contiguous range starting at 0, and any integer outside that range
is an out-of-domain tag for that enumeration. -/
theorem enumeration_integer_encodings :
    Low = 0 ∧ High = 1 ∧ In = 0 ∧ Out = 1 ∧
    NoEdges = 0 ∧ RisingEdge = 1 ∧ FallingEdge = 2 ∧ BothEdges = 3 ∧
    (∀ value : Value, Value.valid value ↔ 0 ≤ value ∧ value < 2) ∧
    (∀ direction : Direction,
      Direction.valid direction ↔ 0 ≤ direction ∧ direction < 2) ∧
    (∀ sensitivity : EdgeSensitivity,
      EdgeSensitivity.valid sensitivity ↔
        0 ≤ sensitivity ∧ sensitivity < 4) := by
  refine ⟨rfl, rfl, rfl, rfl, rfl, rfl, rfl, rfl, ?_, ?_, ?_⟩
  · intro value
    simp only [Value.valid, Low, High]
    constructor
    · rintro (rfl | rfl) <;> exact ⟨by decide, by decide⟩
    · intro h
      exact int_mem_range_two value h.1 h.2
  · intro direction
    simp only [Direction.valid, In, Out]
    constructor
    · rintro (rfl | rfl) <;> exact ⟨by decide, by decide⟩
    · intro h
      exact int_mem_range_two direction h.1 h.2
  · intro sensitivity
    simp only [EdgeSensitivity.valid, NoEdges, RisingEdge, FallingEdge,
      BothEdges]
    constructor
    · rintro (rfl | rfl | rfl | rfl) <;> exact ⟨by decide, by decide⟩
    · intro h
      exact int_mem_range_four sensitivity h.1 h.2

/-- Claim C10: the zero (default) value of each enumeration type is a
valid tag — `Value` zero is `Low`, `Direction` zero is `In`,
`EdgeSensitivity` zero is `NoEdges` — so `String` on a default value of
any of the three types does not panic, and a default `EdgeSensitivity`
denotes the disabled state, under which a wait never returns. -/
theorem zero_value_is_valid_default :
    (Value.valid 0 ∧ (0 : Value) = Low ∧ (Value.String 0).isSome = true) ∧
    (Direction.valid 0 ∧ (0 : Direction) = In ∧
      (Direction.String 0).isSome = true) ∧
    (EdgeSensitivity.valid 0 ∧ (0 : EdgeSensitivity) = NoEdges ∧
      (EdgeSensitivity.String 0).isSome = true) ∧
    (∀ trace : List (Value × Value), waitForEdge 0 trace = none) := by
  refine ⟨by decide, by decide, by decide, ?_⟩
  intro trace
  exact waitForEdge_noEdges_eq_none trace
